import Mathlib

/-!
Verification of the CorePlex document module (`Doc` class): permission
normalization, document CRUD access control, and the comment tree
controller, embedded shallowly from the TypeScript source.

Conventions of the embedding:
* Mongoose storage collections are modelled as `List` of records; the
  collaborator operations (`find`, `findById`, `findByIdAndUpdate`,
  `deleteOne`, `countDocuments`) become pure list functions.
* `async/await` sequencing becomes ordinary sequencing; every operation is
  a pure function from the ambient stores to a result and the new stores.
* TypeScript `undefined`/optional chaining becomes `Option`.
* Record identifiers are the string forms of the Mongoose ObjectIds; the
  user directory is a list of `(id, role)` records.
-/

namespace CorePlex

/-- Modelled from the spec: the role hierarchy (core/types/user is not under
src/). An ordered categorical set; `GEST` is the guest role and `SELLER` the
intermediate registered-level role the write-side defaults use. -/
inductive ERole where
  | GEST
  | USER
  | SELLER
  | ADMIN
deriving DecidableEq, Repr

/-- Rank of a role in the fixed total order. -/
def ERole.rank : ERole → Nat
  | .GEST => 0
  | .USER => 1
  | .SELLER => 2
  | .ADMIN => 3

/-- Modelled from the spec: `roleSatisfies(actorRole, requiredRole)` of the
auth helper (core/helpers/auth is not under src/): true iff the actor's rank
is at least the required rank; an unresolved actor (no role) satisfies no
check. The source calls it `permissionsCheck(required, actorRole)`. -/
def permissionsCheck (required : ERole) (actor : Option ERole) : Bool :=
  match actor with
  | none => false
  | some r => required.rank ≤ r.rank

/-- Document lifecycle states (types/general.ts `EStates`). -/
inductive EStates where
  | PUBLISHED
  | DRAFT
deriving DecidableEq, Repr

/-- Comment states (types/general.ts `ECommentState`). -/
inductive ECommentState where
  | ACCEPTED
  | REJECTED
  | WAITING
  | PARENT_DELETED
deriving DecidableEq, Repr

/-- Document-side result messages (messages/document.ts `EDocumentMSG`). -/
inductive EDocumentMSG where
  | SUCCESS
  | SUCCESS_CREATE
  | SUCCESS_EDIT
  | SUCCESS_DELETE
  | CAN_CREATE_DOCUMENT
  | USER_NOT_FOUND
  | AUTHOR_NOT_FOUND
  | DOCUMENT_NOT_FOUND
  | EDITOR_NOT_FOUND
  | NO_PERMISSION
  | NEW_AUTHOR_IS_NOT_VALID
deriving DecidableEq, Repr

/-- Modelled from the spec: comment-side result messages (messages/comment.ts
is not under src/); the constructors are the members the source references. -/
inductive ECommentMSG where
  | SUCCESS
  | SUCCESS_CREATE
  | SUCCESS_EDIT
  | SUCCESS_DELETE
  | USER_NOT_FOUND
  | COMMENT_NOT_FOUND
  | ARTICLE_NOT_FOUND
  | NO_PERMISSION
deriving DecidableEq, Repr

/-- Modelled from the spec: numeric status codes (core/types/general is not
under src/); the spec fixes the conventional HTTP values 200/201/404/403/409. -/
def EStatusCodes.SUCCESS : Nat := 200

def EStatusCodes.SUCCESS_CREATE : Nat := 201

def EStatusCodes.NOT_FOUND : Nat := 404

def EStatusCodes.FORBIDDEN : Nat := 403

def EStatusCodes.CONFLICT : Nat := 409

/-- Modelled from the spec: the status a `singleError` call carries when the
source omits the third argument (the `TypedResult` helper is not under src/).
The spec does not pin this value and no claim depends on it. -/
def EStatusCodes.DEFAULT_ERROR : Nat := 400

/-- Tagged result of a document/comment operation (spec section 6): a success
carrying data, a field-qualified error, or the raw disabled-feature fault the
comment operations return when comments are not enabled. -/
inductive DocResult (α : Type) (μ : Type) where
  | success (data : α) (message : μ) (status : Nat)
  | error (field : String) (message : μ) (status : Nat)
  | disabled
deriving DecidableEq, Repr

/-- Page metadata (spec sections 3 and 4.4). -/
structure PageData where
  page : Nat
  limit : Nat
  total : Nat
  totalPages : Nat
  hasNext : Bool
  hasPrev : Bool
deriving DecidableEq, Repr

/-- Tagged result of a paginated listing: success carries the page of records
and the page metadata. -/
inductive PagedResult (α : Type) (μ : Type) where
  | success (data : List α) (pageData : PageData) (status : Nat)
  | error (field : String) (message : μ) (status : Nat)
  | disabled
deriving DecidableEq, Repr

/-- Modelled from the spec: `ConvertToNaturalNumber` (core/helpers/general is
not under src/) coerces any non-positive input up to 1. -/
def ConvertToNaturalNumber (n : Int) : Nat :=
  if n ≤ 0 then 1 else n.toNat

/-- Modelled from the spec: `getPageData` (core/helpers/general is not under
src/): totalPages is the ceiling of total over limit, hasNext iff the current
page precedes the last, hasPrev iff the page is beyond the first. -/
def getPageData (page limit total : Nat) : PageData :=
  { page := page
    limit := limit
    total := total
    totalPages := (total + limit - 1) / limit
    hasNext := page < (total + limit - 1) / limit
    hasPrev := 1 < page }

/-- A user-directory record (spec section 6: at least `{id, role}`). -/
structure User where
  id : String
  role : ERole
deriving DecidableEq, Repr

/-- Modelled from the spec: the user directory collaborator's
find-by-identifier (`User.findById`). -/
def findUser (users : List User) (uid : String) : Option User :=
  users.find? (fun u => u.id == uid)

/-- Modelled from the spec: `findDocByIdentity` (core/helpers/general is not
under src/): when the identity matches the storage engine's native identifier
format, look up by identifier, otherwise by the slug field; exactly one
strategy per call. `idFormat` is the engine's native-format test, `getId` and
`getSlug` project the collection's identifier and slug fields. -/
def findDocByIdentity {α : Type} (idFormat : String → Bool) (getId : α → String)
    (getSlug : α → Option String) (identity : String) (store : List α) : Option α :=
  if idFormat identity then
    store.find? (fun r => getId r == identity)
  else
    store.find? (fun r => getSlug r == some identity)

/-- An owner-aware action permission: minimum role plus the public flag
(types/general.ts, the `{role, public}` pairs). -/
structure OwnedPerm where
  role : ERole
  isPublic : Bool
deriving DecidableEq, Repr

/-- The optional advance-permission block of `IDocOptions.permissions`
(types/general.ts): every field may be absent before normalization. -/
structure AdvancePerms where
  getAll : Option ERole
  getOne : Option ERole
  create : Option ERole
  edit : Option OwnedPerm
  delete : Option OwnedPerm
  getDrafts : Option OwnedPerm
deriving DecidableEq, Repr

/-- The optional permissions block of `IDocOptions` (types/general.ts). -/
structure Permissions where
  read : Option ERole
  write : Option ERole
  advance : Option AdvancePerms
deriving DecidableEq, Repr

/-- The permission-processing step of the `Doc` constructor (part_000 lines
22-41): spread the incoming permissions block and replace `advance` with the
block whose every field falls back from the explicit advance value to the
read/write shorthand to the hard-coded default. The whole permissions block
may itself be absent (`document.permissions` is optional), in which case the
spread contributes nothing. -/
def normalizePermissions (p : Option Permissions) : Permissions :=
  { read := p.bind (fun q => q.read)
    write := p.bind (fun q => q.write)
    advance := some
      { getAll := some ((((p.bind (fun q => q.advance)).bind (fun a => a.getAll)).orElse
          (fun _ => p.bind (fun q => q.read))).getD ERole.GEST)
        getOne := some ((((p.bind (fun q => q.advance)).bind (fun a => a.getOne)).orElse
          (fun _ => p.bind (fun q => q.read))).getD ERole.GEST)
        create := some ((((p.bind (fun q => q.advance)).bind (fun a => a.create)).orElse
          (fun _ => p.bind (fun q => q.write))).getD ERole.SELLER)
        edit := some (((p.bind (fun q => q.advance)).bind (fun a => a.edit)).getD
          { role := (p.bind (fun q => q.write)).getD ERole.SELLER, isPublic := true })
        delete := some (((p.bind (fun q => q.advance)).bind (fun a => a.delete)).getD
          { role := (p.bind (fun q => q.write)).getD ERole.SELLER, isPublic := false })
        getDrafts := some (((p.bind (fun q => q.advance)).bind (fun a => a.getDrafts)).getD
          { role := (p.bind (fun q => q.write)).getD ERole.SELLER, isPublic := true }) } }

/-- A persisted document record (spec section 3 `DocumentRecord`): identifier,
optional unique slug, optional author reference, lifecycle state, and the
remaining schema-defined payload collapsed into one opaque field. Identifiers
are the string forms of the storage identifiers; the spec states the ownership
comparison is string-identity equality. -/
structure Rec where
  id : String
  slug : Option String
  authorId : Option String
  state : EStates
  content : String
deriving DecidableEq, Repr

/-- The external collaborators an operation consults: the user directory and
the storage engine's native-identifier format test. -/
structure Env where
  users : List User
  idFormat : String → Bool

/-- Identity resolution specialised to the document collection. -/
def findRecByIdentity (env : Env) (identity : String) (store : List Rec) : Option Rec :=
  findDocByIdentity env.idFormat Rec.id Rec.slug identity store

/-- A partial update payload for `edit` (`Partial<IModel>`): `authorId = some a`
means the payload contains the `authorId` key with value `a`; absent keys are
`none`. -/
structure DocUpdate where
  authorId : Option String
  state : Option EStates
  content : Option String
deriving DecidableEq, Repr

/-- Apply a partial update to a stored record: present keys overwrite. -/
def applyUpdate (r : Rec) (d : DocUpdate) : Rec :=
  { r with
    authorId := match d.authorId with | some a => some a | none => r.authorId
    state := d.state.getD r.state
    content := d.content.getD r.content }

/-- `Model.findByIdAndUpdate(i, d)` on the store: update the first record whose
identifier is `i`; the unchanged store when none matches. -/
def updateFirstById (store : List Rec) (i : String) (d : DocUpdate) : List Rec :=
  match store with
  | [] => []
  | r :: rs => if r.id == i then applyUpdate r d :: rs else r :: updateFirstById rs i d

/-- `Doc.getAll` (part_000 lines 232-290). `getAllPerm` and `getDraftsPerm` are
the normalized `advance.getAll` and `advance.getDrafts` policies; `sortFn` is
the storage collaborator's sort for the requested keys. When the getAll action
requires more than guest: a missing `userId` is the user-not-found error, and a
failed role check on the looked-up user (null when the id is unknown) is the
no-permission error. The filter defaults to published-only and is cleared when
the getDrafts policy is guest-level or the re-resolved actor satisfies it. -/
def Doc.getAll (getAllPerm : ERole) (getDraftsPerm : OwnedPerm) (env : Env)
    (sortFn : List Rec → List Rec) (store : List Rec) (page limit : Int)
    (userId : Option String) : PagedResult Rec EDocumentMSG :=
  if getAllPerm != ERole.GEST && userId.isNone then
    .error "user" .USER_NOT_FOUND EStatusCodes.DEFAULT_ERROR
  else if getAllPerm != ERole.GEST &&
      !permissionsCheck getAllPerm ((userId.bind (findUser env.users)).map User.role) then
    .error "user" .NO_PERMISSION EStatusCodes.DEFAULT_ERROR
  else
    let p := ConvertToNaturalNumber page
    let l := ConvertToNaturalNumber limit
    let skip := (p - 1) * l
    let includeDrafts :=
      getDraftsPerm.role == ERole.GEST ||
        (userId.isSome &&
          permissionsCheck getDraftsPerm.role
            ((userId.bind (findUser env.users)).map User.role))
    let matching := store.filter (fun r => includeDrafts || r.state == EStates.PUBLISHED)
    .success (((sortFn matching).drop skip).take l)
      (getPageData p l matching.length) EStatusCodes.SUCCESS

/-- `Doc.edit` (part_000 lines 334-381). `editPerms` is the normalized
`advance.edit` policy and `createPerm` the normalized `advance.create` role
(the new-author cross-check reuses it). Checks run in source order: record
resolution, editor resolution (skipped only for a guest-public policy), role
check, ownership check, then the authorId-reassignment checks; the update is
`findByIdAndUpdate` without `new: true`, so the success carries the pre-update
record found by the document's identifier. -/
def Doc.edit (editPerms : OwnedPerm) (createPerm : ERole) (env : Env) (store : List Rec)
    (identity : String) (data : DocUpdate) (editorId : Option String) :
    DocResult (Option Rec) EDocumentMSG × List Rec :=
  match findRecByIdentity env identity store with
  | none => (.error "document" .DOCUMENT_NOT_FOUND EStatusCodes.DEFAULT_ERROR, store)
  | some document =>
    let needUser := editPerms.role != ERole.GEST || !editPerms.isPublic
    let user : Option User := if needUser then editorId.bind (findUser env.users) else none
    if needUser && user.isNone then
      (.error "user" .USER_NOT_FOUND EStatusCodes.DEFAULT_ERROR, store)
    else if editPerms.role != ERole.GEST &&
        !permissionsCheck editPerms.role (user.map User.role) then
      (.error "user" .NO_PERMISSION EStatusCodes.DEFAULT_ERROR, store)
    else if !editPerms.isPublic && document.authorId != user.map User.id then
      (.error "user" .NO_PERMISSION EStatusCodes.DEFAULT_ERROR, store)
    else
      match data.authorId with
      | some newAuthorId =>
        match findUser env.users newAuthorId with
        | none => (.error "new_author" .USER_NOT_FOUND EStatusCodes.NOT_FOUND, store)
        | some newAuthor =>
          if !permissionsCheck createPerm (some newAuthor.role) then
            (.error "new_author" .NEW_AUTHOR_IS_NOT_VALID EStatusCodes.DEFAULT_ERROR, store)
          else
            (.success (store.find? (fun r => r.id == document.id)) .SUCCESS_EDIT
              EStatusCodes.SUCCESS_CREATE, updateFirstById store document.id data)
      | none =>
        (.success (store.find? (fun r => r.id == document.id)) .SUCCESS_EDIT
          EStatusCodes.SUCCESS_CREATE, updateFirstById store document.id data)

/-- `Doc.delete` (part_000 lines 383-418). Mirrors edit's resolution and
ownership logic against the normalized `advance.delete` policy, then runs
`this.Model.deleteOne()` with no filter: the storage engine deletes the first
document matching the empty filter, i.e. the first record of the collection,
whatever `document` resolved to; the success result still carries the resolved
record. -/
def Doc.delete (delPerms : OwnedPerm) (env : Env) (store : List Rec)
    (identity : String) (userId : Option String) :
    DocResult Rec EDocumentMSG × List Rec :=
  match findRecByIdentity env identity store with
  | none => (.error "document" .DOCUMENT_NOT_FOUND EStatusCodes.DEFAULT_ERROR, store)
  | some document =>
    let needUser := delPerms.role != ERole.GEST || !delPerms.isPublic
    let user : Option User := if needUser then userId.bind (findUser env.users) else none
    if needUser && user.isNone then
      (.error "user" .USER_NOT_FOUND EStatusCodes.DEFAULT_ERROR, store)
    else if delPerms.role != ERole.GEST &&
        !permissionsCheck delPerms.role (user.map User.role) then
      (.error "user" .NO_PERMISSION EStatusCodes.DEFAULT_ERROR, store)
    else if !delPerms.isPublic && document.authorId != user.map User.id then
      (.error "user" .NO_PERMISSION EStatusCodes.DEFAULT_ERROR, store)
    else
      (.success document .SUCCESS_DELETE EStatusCodes.SUCCESS, store.drop 1)

/-- A stored comment, following `createCommentsModel`'s schema (part_000 lines
138-185): title, body, required parent-document reference (schema path
`document`), optional user reference, optional parent-comment reference, and a
state. The schema defines no slug and no `article` path. -/
structure Comment where
  id : String
  title : String
  body : String
  document : String
  user : Option String
  parent : Option String
  state : ECommentState
deriving DecidableEq, Repr

/-- The `article` path of a stored comment: the comment schema defines no such
path, so it is absent on every comment this module stores. -/
def commentArticleField (_ : Comment) : Option String :=
  none

/-- A partial update payload for `editComment` (`Partial<IComment>`): present
keys overwrite, `none` means the key is absent. -/
structure CommentUpdate where
  title : Option String
  body : Option String
  state : Option ECommentState
deriving DecidableEq, Repr

/-- Apply a partial comment update: present keys overwrite. -/
def applyCommentUpdate (c : Comment) (d : CommentUpdate) : Comment :=
  { c with
    title := d.title.getD c.title
    body := d.body.getD c.body
    state := d.state.getD c.state }

/-- `CommentModel.findByIdAndUpdate(i, d)` on the store: update the first
comment whose identifier is `i`. -/
def updateCommentFirstById (store : List Comment) (i : String) (d : CommentUpdate) :
    List Comment :=
  match store with
  | [] => []
  | c :: cs =>
    if c.id == i then applyCommentUpdate c d :: cs else c :: updateCommentFirstById cs i d

/-- `comment.deleteOne()` on the store: remove the first comment whose
identifier is `i`. -/
def removeFirstCommentById (store : List Comment) (i : String) : List Comment :=
  match store with
  | [] => []
  | c :: cs => if c.id == i then cs else c :: removeFirstCommentById cs i

/-- `CommentModel.findByIdAndUpdate(i, {state: s})` on the store: set the state
of the first comment whose identifier is `i`. -/
def setStateFirstById (store : List Comment) (i : String) (s : ECommentState) :
    List Comment :=
  match store with
  | [] => []
  | c :: cs =>
    if c.id == i then { c with state := s } :: cs else c :: setStateFirstById cs i s

/-- `Doc.Comment.getDocumentComments` (part_000 lines 433-470). The source
resolves the identity with `findDocByIdentity(identity, this.CommentModel)`,
so the lookup runs against the comment collection (comments have no slug
field, so the slug strategy matches nothing), and then filters on
`{article: document._id, state: ACCEPTED}`, where `article` is a path the
comment schema does not define. -/
def Comment.getDocumentComments (enabled : Bool) (env : Env) (commentStore : List Comment)
    (identity : String) (page limit : Int) : PagedResult Comment ECommentMSG :=
  if !enabled then .disabled
  else
    let p := ConvertToNaturalNumber page
    let l := ConvertToNaturalNumber limit
    let skip := (p - 1) * l
    match findDocByIdentity env.idFormat Comment.id (fun _ => none) identity commentStore with
    | none => .error "article" .ARTICLE_NOT_FOUND EStatusCodes.NOT_FOUND
    | some document =>
      let matching := commentStore.filter (fun c =>
        commentArticleField c == some document.id && c.state == ECommentState.ACCEPTED)
      .success ((matching.drop skip).take l) (getPageData p l matching.length)
        EStatusCodes.SUCCESS

/-- `Doc.Comment.editComment` (part_000 lines 526-549). `canVerify` is the
configured `comments.canVerify` policy. After resolving the editor, an editor
failing the verify role has the payload's `state` overwritten to `WAITING`;
the update is `findByIdAndUpdate` with `new: true`, so the success carries the
post-update comment. -/
def Comment.editComment (enabled : Bool) (canVerify : OwnedPerm) (env : Env)
    (store : List Comment) (commentId : String) (data : CommentUpdate) (editorId : String) :
    DocResult Comment ECommentMSG × List Comment :=
  if !enabled then (.disabled, store)
  else
    match findUser env.users editorId with
    | none => (.error "user" .USER_NOT_FOUND EStatusCodes.CONFLICT, store)
    | some user =>
      let d :=
        if !permissionsCheck canVerify.role (some user.role) then
          { data with state := some ECommentState.WAITING }
        else data
      match store.find? (fun c => c.id == commentId) with
      | none => (.error "commentId" .COMMENT_NOT_FOUND EStatusCodes.NOT_FOUND, store)
      | some c =>
        (.success (applyCommentUpdate c d) .SUCCESS_EDIT EStatusCodes.SUCCESS,
          updateCommentFirstById store commentId d)

/-- The cascade loop of `deleteComment`: for each fetched child, run
`CommentModel.findByIdAndUpdate(child._id, {state: PARENT_DELETED})`. -/
def cascadeChildren (children : List Comment) (store : List Comment) : List Comment :=
  children.foldl
    (fun st ch => setStateFirstById st ch.id ECommentState.PARENT_DELETED) store

/-- Output of `deleteComment`: the returned result, the comment store after
the deletion and cascade, and the errors recorded on the shared result object
without being returned (the source's no-`return` `singleError` call). -/
structure CommentDeleteOut where
  result : DocResult Comment ECommentMSG
  store : List Comment
  recorded : List (String × ECommentMSG × Nat)
deriving DecidableEq, Repr

/-- `Doc.Comment.deleteComment` (part_000 lines 552-584). `canMange` is the
configured `comments.canMange` role. The editor must resolve; the comment must
exist (fetched with its `children`, the comments whose `parent` is its
identifier); an editor who is neither the comment's author nor satisfies
`canMange` has a forbidden error recorded WITHOUT a return, so the deletion
and the one-level cascade still run and the success is still returned. -/
def Comment.deleteComment (enabled : Bool) (canMange : ERole) (env : Env)
    (store : List Comment) (commentId editorId : String) : CommentDeleteOut :=
  if !enabled then ⟨.disabled, store, []⟩
  else
    match findUser env.users editorId with
    | none => ⟨.error "user" .USER_NOT_FOUND EStatusCodes.CONFLICT, store, []⟩
    | some user =>
      match store.find? (fun c => c.id == commentId) with
      | none => ⟨.error "commentId" .COMMENT_NOT_FOUND EStatusCodes.NOT_FOUND, store, []⟩
      | some comment =>
        let recorded :=
          if comment.user != some user.id && !permissionsCheck canMange (some user.role) then
            [("editor", ECommentMSG.NO_PERMISSION, EStatusCodes.FORBIDDEN)]
          else []
        let children := store.filter (fun c => c.parent == some comment.id)
        let store1 := removeFirstCommentById store comment.id
        let store2 := cascadeChildren children store1
        ⟨.success comment .SUCCESS_DELETE EStatusCodes.SUCCESS, store2, recorded⟩

/-! ## Theorems -/

/-- Stated from the spec (section 4.2): the defaulting precedence for one
advance-permission field — the explicit advance value, else the top-level
shorthand, else the hard-coded default. -/
def specPrecedence {α : Type} (explicit fallback : Option α) (dflt : α) : α :=
  (explicit.orElse (fun _ => fallback)).getD dflt

theorem OwnedPerm.getD_pair_eq_specPrecedence (e : Option OwnedPerm) (w : Option ERole)
    (b : Bool) :
    e.getD { role := w.getD ERole.SELLER, isPublic := b } =
      specPrecedence e (w.map (fun x => { role := x, isPublic := b }))
        { role := ERole.SELLER, isPublic := b } := by
  cases e <;> cases w <;> rfl

/-- C8: for every raw configuration, the constructor fills each
advance-permission field by the precedence explicit-advance-value, else
top-level read/write shorthand, else hard-coded default (getAll/getOne fall
back to read then GEST; create/edit/delete/getDrafts fall back to write then
SELLER, with the edit/delete/getDrafts public flags true/false/true), and
after construction every advance-permission field is populated. -/
theorem normalizePermissions_fills_by_precedence (p : Option Permissions) :
    ∃ a : AdvancePerms,
      (normalizePermissions p).advance = some a ∧
      a.getAll = some (specPrecedence
        ((p.bind (fun q => q.advance)).bind (fun v => v.getAll))
        (p.bind (fun q => q.read)) ERole.GEST) ∧
      a.getOne = some (specPrecedence
        ((p.bind (fun q => q.advance)).bind (fun v => v.getOne))
        (p.bind (fun q => q.read)) ERole.GEST) ∧
      a.create = some (specPrecedence
        ((p.bind (fun q => q.advance)).bind (fun v => v.create))
        (p.bind (fun q => q.write)) ERole.SELLER) ∧
      a.edit = some (specPrecedence
        ((p.bind (fun q => q.advance)).bind (fun v => v.edit))
        ((p.bind (fun q => q.write)).map (fun x => { role := x, isPublic := true }))
        { role := ERole.SELLER, isPublic := true }) ∧
      a.delete = some (specPrecedence
        ((p.bind (fun q => q.advance)).bind (fun v => v.delete))
        ((p.bind (fun q => q.write)).map (fun x => { role := x, isPublic := false }))
        { role := ERole.SELLER, isPublic := false }) ∧
      a.getDrafts = some (specPrecedence
        ((p.bind (fun q => q.advance)).bind (fun v => v.getDrafts))
        ((p.bind (fun q => q.write)).map (fun x => { role := x, isPublic := true }))
        { role := ERole.SELLER, isPublic := true }) := by
  refine ⟨_, rfl, rfl, rfl, rfl, ?_, ?_, ?_⟩ <;>
    simp only [normalizePermissions, OwnedPerm.getD_pair_eq_specPrecedence]

/-- C9: the constructor's permission normalization is idempotent — applying
it to an already-normalized configuration changes nothing. -/
theorem normalizePermissions_idempotent (p : Option Permissions) :
    normalizePermissions (some (normalizePermissions p)) = normalizePermissions p :=
  rfl

/-- C10: when the getAll action requires more than the guest role, a supplied
but unknown userId yields the no-permission error, not the user-not-found
error; the user-not-found error arises only when userId is absent. -/
theorem getAll_unknown_userId_yields_no_permission (gp : ERole) (gd : OwnedPerm)
    (env : Env) (sortFn : List Rec → List Rec) (store : List Rec) (page limit : Int) :
    (∀ uid : String, gp ≠ ERole.GEST → findUser env.users uid = none →
      Doc.getAll gp gd env sortFn store page limit (some uid) =
        .error "user" .NO_PERMISSION EStatusCodes.DEFAULT_ERROR) ∧
    (gp ≠ ERole.GEST →
      Doc.getAll gp gd env sortFn store page limit none =
        .error "user" .USER_NOT_FOUND EStatusCodes.DEFAULT_ERROR) ∧
    (∀ (uid : String) (s : Nat),
      Doc.getAll gp gd env sortFn store page limit (some uid) ≠
        .error "user" .USER_NOT_FOUND s) := by
  refine ⟨?_, ?_, ?_⟩
  · intro uid hgp hu
    simp [Doc.getAll, hu, permissionsCheck, bne_iff_ne, hgp]
  · intro hgp
    simp [Doc.getAll, bne_iff_ne, hgp]
  · intro uid s
    by_cases hperm : gp != ERole.GEST &&
        !permissionsCheck gp ((findUser env.users uid).map User.role)
    · simp [Doc.getAll, hperm]
    · simp [Doc.getAll, hperm]

theorem getAll_unknown_userId_yields_no_permission_witness :
    Doc.getAll ERole.SELLER { role := ERole.SELLER, isPublic := true }
        { users := [], idFormat := fun _ => true } id [] 1 10 (some "u") =
      .error "user" .NO_PERMISSION EStatusCodes.DEFAULT_ERROR ∧
    Doc.getAll ERole.SELLER { role := ERole.SELLER, isPublic := true }
        { users := [], idFormat := fun _ => true } id [] 1 10 none =
      .error "user" .USER_NOT_FOUND EStatusCodes.DEFAULT_ERROR :=
  ⟨(getAll_unknown_userId_yields_no_permission ERole.SELLER
      { role := ERole.SELLER, isPublic := true }
      { users := [], idFormat := fun _ => true } id [] 1 10).1 "u" (by decide) rfl,
   (getAll_unknown_userId_yields_no_permission ERole.SELLER
      { role := ERole.SELLER, isPublic := true }
      { users := [], idFormat := fun _ => true } id [] 1 10).2.1 (by decide)⟩

/-- C2: edit evaluates its checks in the fixed order record-existence, then
role-permission, then ownership, then new-author-existence for an authorId
reassignment: a missing record yields NotFound whatever else is wrong; with
the record present, a failed role check yields the permission error before
ownership or author checks; with role passed, a failed ownership check yields
the permission error before the author check; with all earlier checks passed,
a missing new author yields its NotFound error. -/
theorem edit_check_order (editPerms : OwnedPerm) (createPerm : ERole) (env : Env)
    (store : List Rec) (identity : String) (data : DocUpdate) (editorId : Option String) :
    (findRecByIdentity env identity store = none →
      Doc.edit editPerms createPerm env store identity data editorId =
        (.error "document" .DOCUMENT_NOT_FOUND EStatusCodes.DEFAULT_ERROR, store)) ∧
    (∀ document u, findRecByIdentity env identity store = some document →
      editorId.bind (findUser env.users) = some u →
      editPerms.role ≠ ERole.GEST →
      permissionsCheck editPerms.role (some u.role) = false →
      Doc.edit editPerms createPerm env store identity data editorId =
        (.error "user" .NO_PERMISSION EStatusCodes.DEFAULT_ERROR, store)) ∧
    (∀ document u, findRecByIdentity env identity store = some document →
      editorId.bind (findUser env.users) = some u →
      permissionsCheck editPerms.role (some u.role) = true →
      editPerms.isPublic = false →
      document.authorId ≠ some u.id →
      Doc.edit editPerms createPerm env store identity data editorId =
        (.error "user" .NO_PERMISSION EStatusCodes.DEFAULT_ERROR, store)) ∧
    (∀ document u a, findRecByIdentity env identity store = some document →
      editorId.bind (findUser env.users) = some u →
      permissionsCheck editPerms.role (some u.role) = true →
      (editPerms.isPublic = true ∨ document.authorId = some u.id) →
      data.authorId = some a →
      findUser env.users a = none →
      Doc.edit editPerms createPerm env store identity data editorId =
        (.error "new_author" .USER_NOT_FOUND EStatusCodes.NOT_FOUND, store)) := by
  refine ⟨?_, ?_, ?_, ?_⟩
  · intro hr
    simp [Doc.edit, hr]
  · intro document u hr hu hrole hcheck
    simp [Doc.edit, hr, hu, bne_iff_ne, hrole, hcheck]
  · intro document u hr hu hcheck hpub hne
    simp [Doc.edit, hr, hu, hcheck, hpub, bne_iff_ne, hne]
  · intro document u a hr hu hcheck hown ha hna
    rcases hown with hpub | hown
    · by_cases hg : editPerms.role = ERole.GEST
      · simp [Doc.edit, hr, hu, hg, hpub, ha, hna]
      · simp [Doc.edit, hr, hu, bne_iff_ne, hg, hpub, hcheck, ha, hna]
    · by_cases hg : editPerms.role = ERole.GEST <;>
      by_cases hp : editPerms.isPublic <;>
        simp [Doc.edit, hr, hu, bne_iff_ne, hg, hp, hcheck, hown, ha, hna]

theorem edit_check_order_witness :
    (Doc.edit { role := ERole.SELLER, isPublic := false } ERole.SELLER
        { users := [{ id := "u1", role := ERole.SELLER }, { id := "u2", role := ERole.USER },
            { id := "u3", role := ERole.ADMIN }], idFormat := fun _ => true }
        [{ id := "d1", slug := none, authorId := some "u1", state := EStates.PUBLISHED,
            content := "x" }]
        "zz" { authorId := some "ghost", state := none, content := none } (some "u1") =
      (.error "document" .DOCUMENT_NOT_FOUND EStatusCodes.DEFAULT_ERROR,
        [{ id := "d1", slug := none, authorId := some "u1", state := EStates.PUBLISHED,
            content := "x" }])) ∧
    (Doc.edit { role := ERole.SELLER, isPublic := false } ERole.SELLER
        { users := [{ id := "u1", role := ERole.SELLER }, { id := "u2", role := ERole.USER },
            { id := "u3", role := ERole.ADMIN }], idFormat := fun _ => true }
        [{ id := "d1", slug := none, authorId := some "u1", state := EStates.PUBLISHED,
            content := "x" }]
        "d1" { authorId := some "ghost", state := none, content := none } (some "u2") =
      (.error "user" .NO_PERMISSION EStatusCodes.DEFAULT_ERROR,
        [{ id := "d1", slug := none, authorId := some "u1", state := EStates.PUBLISHED,
            content := "x" }])) ∧
    (Doc.edit { role := ERole.SELLER, isPublic := false } ERole.SELLER
        { users := [{ id := "u1", role := ERole.SELLER }, { id := "u2", role := ERole.USER },
            { id := "u3", role := ERole.ADMIN }], idFormat := fun _ => true }
        [{ id := "d1", slug := none, authorId := some "u1", state := EStates.PUBLISHED,
            content := "x" }]
        "d1" { authorId := some "ghost", state := none, content := none } (some "u3") =
      (.error "user" .NO_PERMISSION EStatusCodes.DEFAULT_ERROR,
        [{ id := "d1", slug := none, authorId := some "u1", state := EStates.PUBLISHED,
            content := "x" }])) ∧
    (Doc.edit { role := ERole.SELLER, isPublic := false } ERole.SELLER
        { users := [{ id := "u1", role := ERole.SELLER }, { id := "u2", role := ERole.USER },
            { id := "u3", role := ERole.ADMIN }], idFormat := fun _ => true }
        [{ id := "d1", slug := none, authorId := some "u1", state := EStates.PUBLISHED,
            content := "x" }]
        "d1" { authorId := some "ghost", state := none, content := none } (some "u1") =
      (.error "new_author" .USER_NOT_FOUND EStatusCodes.NOT_FOUND,
        [{ id := "d1", slug := none, authorId := some "u1", state := EStates.PUBLISHED,
            content := "x" }])) :=
  ⟨(edit_check_order _ _ _ _ _ _ _).1 rfl,
   (edit_check_order _ _ _ _ _ _ _).2.1
     { id := "d1", slug := none, authorId := some "u1", state := EStates.PUBLISHED,
       content := "x" }
     { id := "u2", role := ERole.USER } rfl rfl (by decide) (by decide),
   (edit_check_order _ _ _ _ _ _ _).2.2.1
     { id := "d1", slug := none, authorId := some "u1", state := EStates.PUBLISHED,
       content := "x" }
     { id := "u3", role := ERole.ADMIN } rfl rfl (by decide) rfl (by decide),
   (edit_check_order _ _ _ _ _ _ _).2.2.2
     { id := "d1", slug := none, authorId := some "u1", state := EStates.PUBLISHED,
       content := "x" }
     { id := "u1", role := ERole.SELLER } "ghost" rfl rfl (by decide)
     (Or.inr rfl) rfl rfl⟩

/-- C7: when the edit payload reassigns authorId, a missing new author yields
the NotFound-class new-author error and an existing new author failing the
document's create permission yields the new-author-invalid error; in both
cases the store, and with it the record's author, is unchanged. -/
theorem edit_authorId_reassignment_guards (editPerms : OwnedPerm) (createPerm : ERole)
    (env : Env) (store : List Rec) (identity : String) (data : DocUpdate)
    (editorId : Option String) :
    ∀ document u a, findRecByIdentity env identity store = some document →
      editorId.bind (findUser env.users) = some u →
      permissionsCheck editPerms.role (some u.role) = true →
      (editPerms.isPublic = true ∨ document.authorId = some u.id) →
      data.authorId = some a →
      ((findUser env.users a = none →
        Doc.edit editPerms createPerm env store identity data editorId =
          (.error "new_author" .USER_NOT_FOUND EStatusCodes.NOT_FOUND, store)) ∧
       (∀ na, findUser env.users a = some na →
        permissionsCheck createPerm (some na.role) = false →
        Doc.edit editPerms createPerm env store identity data editorId =
          (.error "new_author" .NEW_AUTHOR_IS_NOT_VALID EStatusCodes.DEFAULT_ERROR,
            store))) := by
  intro document u a hr hu hcheck hown ha
  constructor
  · intro hna
    exact (edit_check_order editPerms createPerm env store identity data
      editorId).2.2.2 document u a hr hu hcheck hown ha hna
  · intro na hna hnp
    rcases hown with hpub | hown
    · by_cases hg : editPerms.role = ERole.GEST
      · simp [Doc.edit, hr, hu, hg, hpub, ha, hna, hnp]
      · simp [Doc.edit, hr, hu, bne_iff_ne, hg, hpub, hcheck, ha, hna, hnp]
    · by_cases hg : editPerms.role = ERole.GEST <;>
      by_cases hp : editPerms.isPublic <;>
        simp [Doc.edit, hr, hu, bne_iff_ne, hg, hp, hcheck, hown, ha, hna, hnp]

theorem edit_authorId_reassignment_guards_witness :
    (Doc.edit { role := ERole.SELLER, isPublic := false } ERole.SELLER
        { users := [{ id := "u1", role := ERole.SELLER }, { id := "u4", role := ERole.GEST }],
          idFormat := fun _ => true }
        [{ id := "d1", slug := none, authorId := some "u1", state := EStates.PUBLISHED,
            content := "x" }]
        "d1" { authorId := some "ghost", state := none, content := none } (some "u1") =
      (.error "new_author" .USER_NOT_FOUND EStatusCodes.NOT_FOUND,
        [{ id := "d1", slug := none, authorId := some "u1", state := EStates.PUBLISHED,
            content := "x" }])) ∧
    (Doc.edit { role := ERole.SELLER, isPublic := false } ERole.SELLER
        { users := [{ id := "u1", role := ERole.SELLER }, { id := "u4", role := ERole.GEST }],
          idFormat := fun _ => true }
        [{ id := "d1", slug := none, authorId := some "u1", state := EStates.PUBLISHED,
            content := "x" }]
        "d1" { authorId := some "u4", state := none, content := none } (some "u1") =
      (.error "new_author" .NEW_AUTHOR_IS_NOT_VALID EStatusCodes.DEFAULT_ERROR,
        [{ id := "d1", slug := none, authorId := some "u1", state := EStates.PUBLISHED,
            content := "x" }])) :=
  ⟨((edit_authorId_reassignment_guards { role := ERole.SELLER, isPublic := false }
      ERole.SELLER
      { users := [{ id := "u1", role := ERole.SELLER }, { id := "u4", role := ERole.GEST }],
        idFormat := fun _ => true }
      [{ id := "d1", slug := none, authorId := some "u1", state := EStates.PUBLISHED,
          content := "x" }]
      "d1" { authorId := some "ghost", state := none, content := none } (some "u1"))
      { id := "d1", slug := none, authorId := some "u1", state := EStates.PUBLISHED,
        content := "x" }
      { id := "u1", role := ERole.SELLER } "ghost" rfl rfl (by decide)
      (Or.inr rfl) rfl).1 rfl,
   ((edit_authorId_reassignment_guards { role := ERole.SELLER, isPublic := false }
      ERole.SELLER
      { users := [{ id := "u1", role := ERole.SELLER }, { id := "u4", role := ERole.GEST }],
        idFormat := fun _ => true }
      [{ id := "d1", slug := none, authorId := some "u1", state := EStates.PUBLISHED,
          content := "x" }]
      "d1" { authorId := some "u4", state := none, content := none } (some "u1"))
      { id := "d1", slug := none, authorId := some "u1", state := EStates.PUBLISHED,
        content := "x" }
      { id := "u1", role := ERole.SELLER } "u4" rfl rfl (by decide)
      (Or.inr rfl) rfl).2 { id := "u4", role := ERole.GEST } rfl (by decide)⟩

/-- C1 counterevidence: `delete` runs `Model.deleteOne()` with no filter, so
the storage engine removes the first record of the collection rather than the
resolved one. Here the caller addresses `d2` and passes every check, the
success result carries `d2`, yet the store afterwards has lost `d1` and still
contains `d2`. -/
theorem delete_removes_first_record_not_the_resolved_one :
    Doc.delete { role := ERole.SELLER, isPublic := false }
        { users := [{ id := "u1", role := ERole.SELLER }], idFormat := fun _ => true }
        [{ id := "d1", slug := none, authorId := some "u1", state := EStates.PUBLISHED,
            content := "a" },
         { id := "d2", slug := none, authorId := some "u1", state := EStates.PUBLISHED,
            content := "b" }]
        "d2" (some "u1") =
      (.success
        { id := "d2", slug := none, authorId := some "u1", state := EStates.PUBLISHED,
          content := "b" }
        .SUCCESS_DELETE EStatusCodes.SUCCESS,
       [{ id := "d2", slug := none, authorId := some "u1", state := EStates.PUBLISHED,
          content := "b" }]) := by
  rfl

theorem mem_updateCommentFirstById_state (i : String) (d : CommentUpdate)
    (s : ECommentState) (hd : d.state = some s) :
    ∀ store : List Comment, (store.map Comment.id).Nodup →
      ∀ x ∈ updateCommentFirstById store i d, x.id = i → x.state = s := by
  intro store
  induction store with
  | nil =>
    intro _ x hx
    simp [updateCommentFirstById] at hx
  | cons c cs ih =>
    intro hnd x hx hxi
    simp only [List.map_cons, List.nodup_cons] at hnd
    by_cases hc : (c.id == i) = true
    · simp only [updateCommentFirstById, if_pos hc] at hx
      rcases List.mem_cons.mp hx with hx | hx
      · subst hx
        simp [applyCommentUpdate, hd]
      · exfalso
        have hmem : x.id ∈ cs.map Comment.id := List.mem_map_of_mem Comment.id hx
        have hci : c.id = i := by simpa using hc
        rw [hxi, ← hci] at hmem
        exact hnd.1 hmem
    · simp only [updateCommentFirstById, if_neg hc] at hx
      rcases List.mem_cons.mp hx with hx | hx
      · subst hx
        exact absurd (by simp [hxi]) hc
      · exact ih hnd.2 x hx hxi

/-- C4: a resolvable editor who fails the configured canVerify role has the
submitted state overwritten: the returned comment and every persisted comment
under the edited identifier end with state WAITING, whatever state the caller
submitted. -/
theorem editComment_downgrades_state_to_waiting (canVerify : OwnedPerm) (env : Env)
    (store : List Comment) (commentId : String) (data : CommentUpdate) (editorId : String)
    (u : User) (c : Comment)
    (hu : findUser env.users editorId = some u)
    (hv : permissionsCheck canVerify.role (some u.role) = false)
    (hc : store.find? (fun x => x.id == commentId) = some c)
    (hnd : (store.map Comment.id).Nodup) :
    (Comment.editComment true canVerify env store commentId data editorId).1 =
      .success (applyCommentUpdate c { data with state := some ECommentState.WAITING })
        .SUCCESS_EDIT EStatusCodes.SUCCESS ∧
    (applyCommentUpdate c { data with state := some ECommentState.WAITING }).state =
      ECommentState.WAITING ∧
    (∀ x ∈ (Comment.editComment true canVerify env store commentId data editorId).2,
      x.id = commentId → x.state = ECommentState.WAITING) := by
  refine ⟨?_, ?_, ?_⟩
  · simp [Comment.editComment, hu, hv, hc]
  · simp [applyCommentUpdate]
  · intro x hx hxi
    have h2 : (Comment.editComment true canVerify env store commentId data editorId).2 =
        updateCommentFirstById store commentId { data with state := some ECommentState.WAITING } := by
      simp [Comment.editComment, hu, hv, hc]
    rw [h2] at hx
    exact mem_updateCommentFirstById_state commentId
      { data with state := some ECommentState.WAITING } ECommentState.WAITING rfl
      store hnd x hx hxi

theorem editComment_downgrades_state_to_waiting_witness :
    (Comment.editComment true { role := ERole.SELLER, isPublic := false }
        { users := [{ id := "e1", role := ERole.USER }], idFormat := fun _ => true }
        [{ id := "c1", title := "t", body := "b", document := "d1", user := some "a1",
            parent := none, state := ECommentState.ACCEPTED }]
        "c1" { title := none, body := none, state := some ECommentState.ACCEPTED } "e1").1 =
      .success
        { id := "c1", title := "t", body := "b", document := "d1", user := some "a1",
          parent := none, state := ECommentState.WAITING }
        .SUCCESS_EDIT EStatusCodes.SUCCESS :=
  (editComment_downgrades_state_to_waiting
    { role := ERole.SELLER, isPublic := false }
    { users := [{ id := "e1", role := ERole.USER }], idFormat := fun _ => true }
    [{ id := "c1", title := "t", body := "b", document := "d1", user := some "a1",
        parent := none, state := ECommentState.ACCEPTED }]
    "c1" { title := none, body := none, state := some ECommentState.ACCEPTED } "e1"
    { id := "e1", role := ERole.USER }
    { id := "c1", title := "t", body := "b", document := "d1", user := some "a1",
      parent := none, state := ECommentState.ACCEPTED }
    rfl rfl rfl (by decide)).1

/-- Pointwise effect of the whole cascade loop on one stored comment: if some
fetched child shares its identifier, its state becomes PARENT_DELETED,
otherwise it is untouched. -/
def cascadeAll (L : List Comment) (y : Comment) : Comment :=
  if L.any (fun z => y.id == z.id) then { y with state := ECommentState.PARENT_DELETED }
  else y

theorem cascadeAll_id (L : List Comment) (y : Comment) : (cascadeAll L y).id = y.id := by
  unfold cascadeAll
  split <;> rfl

theorem map_id_setStateFirstById (i : String) (s : ECommentState) :
    ∀ st : List Comment, (setStateFirstById st i s).map Comment.id = st.map Comment.id := by
  intro st
  induction st with
  | nil => rfl
  | cons c cs ih =>
    by_cases hc : (c.id == i) = true
    · simp [setStateFirstById, hc]
    · simp [setStateFirstById, hc, ih]

theorem map_setState_eq_self_of_id_ne (i : String) (s : ECommentState) :
    ∀ cs : List Comment, (∀ y ∈ cs, y.id ≠ i) →
      cs.map (fun y => if y.id == i then { y with state := s } else y) = cs := by
  intro cs
  induction cs with
  | nil => intro _; rfl
  | cons c cs ih =>
    intro h
    have hc : ¬ ((c.id == i) = true) := by
      simp only [beq_iff_eq]
      exact h c (List.mem_cons_self c cs)
    simp only [List.map_cons]
    rw [if_neg hc, ih (fun y hy => h y (List.mem_cons_of_mem c hy))]

theorem setStateFirstById_eq_map (i : String) (s : ECommentState) :
    ∀ st : List Comment, (st.map Comment.id).Nodup →
      setStateFirstById st i s =
        st.map (fun y => if y.id == i then { y with state := s } else y) := by
  intro st
  induction st with
  | nil => intro _; rfl
  | cons c cs ih =>
    intro hnd
    simp only [List.map_cons, List.nodup_cons] at hnd
    by_cases hc : (c.id == i) = true
    · have hci : c.id = i := by simpa using hc
      have hcs : ∀ y ∈ cs, y.id ≠ i := by
        intro y hy hyi
        exact hnd.1 (by
          rw [hci, ← hyi]
          exact List.mem_map_of_mem Comment.id hy)
      simp only [setStateFirstById, List.map_cons]
      rw [if_pos hc, if_pos hc, map_setState_eq_self_of_id_ne i s cs hcs]
    · simp only [setStateFirstById, List.map_cons]
      rw [if_neg hc, if_neg hc, ih hnd.2]

theorem cascadeAll_step (ch : Comment) (L : List Comment) (y : Comment) :
    cascadeAll L
        (if y.id == ch.id then { y with state := ECommentState.PARENT_DELETED } else y) =
      cascadeAll (ch :: L) y := by
  by_cases hc : (y.id == ch.id) = true
  · by_cases hL : L.any (fun z => y.id == z.id)
    · simp [cascadeAll, hc, hL]
    · simp [cascadeAll, hc, hL]
  · simp [cascadeAll, hc]

theorem cascadeChildren_eq_map :
    ∀ L st : List Comment, (st.map Comment.id).Nodup →
      cascadeChildren L st = st.map (cascadeAll L) := by
  intro L
  induction L with
  | nil =>
    intro st _
    have h0 : cascadeChildren [] st = st := rfl
    have h1 : cascadeAll ([] : List Comment) = fun y => y := by
      funext y
      simp [cascadeAll]
    rw [h0, h1, List.map_id']
  | cons ch L ih =>
    intro st hnd
    have h1 : cascadeChildren (ch :: L) st =
        cascadeChildren L (setStateFirstById st ch.id ECommentState.PARENT_DELETED) := rfl
    have hnd2 : ((setStateFirstById st ch.id ECommentState.PARENT_DELETED).map
        Comment.id).Nodup := by
      rw [map_id_setStateFirstById]
      exact hnd
    rw [h1, ih _ hnd2, setStateFirstById_eq_map ch.id _ st hnd, List.map_map]
    have hfun : cascadeAll L ∘
        (fun y => if y.id == ch.id then { y with state := ECommentState.PARENT_DELETED }
          else y) = cascadeAll (ch :: L) := by
      funext y
      exact cascadeAll_step ch L y
    rw [hfun]

theorem removeFirstCommentById_eq_filter (i : String) :
    ∀ store : List Comment, (store.map Comment.id).Nodup →
      removeFirstCommentById store i = store.filter (fun y => y.id != i) := by
  intro store
  induction store with
  | nil => intro _; rfl
  | cons c cs ih =>
    intro hnd
    simp only [List.map_cons, List.nodup_cons] at hnd
    by_cases hc : (c.id == i) = true
    · have hci : c.id = i := by simpa using hc
      have hfil : cs.filter (fun y => y.id != i) = cs := by
        apply List.filter_eq_self.mpr
        intro y hy
        have hyi : y.id ≠ i := by
          intro h
          exact hnd.1 (by
            rw [hci, ← h]
            exact List.mem_map_of_mem Comment.id hy)
        simpa using hyi
      have hbne : ¬ ((c.id != i) = true) := by
        simp [bne, hc]
      simp only [removeFirstCommentById, List.filter_cons]
      rw [if_pos hc, if_neg hbne, hfil]
    · have hbne : (c.id != i) = true := by
        simp [bne, hc]
      simp only [removeFirstCommentById, List.filter_cons]
      rw [if_neg hc, if_pos hbne, ih hnd.2]

theorem comment_eq_of_id_eq {l : List Comment} (hnd : (l.map Comment.id).Nodup)
    {x y : Comment} (hx : x ∈ l) (hy : y ∈ l) (h : x.id = y.id) : x = y :=
  List.inj_on_of_nodup_map hnd hx hy h

/-- The shape of the store `deleteComment` leaves behind: the addressed
comment removed, then every comment sharing an identifier with a fetched
direct child set to PARENT_DELETED. -/
theorem deleteComment_store_eq (canMange : ERole) (env : Env) (store : List Comment)
    (commentId editorId : String) (u : User) (c : Comment)
    (hu : findUser env.users editorId = some u)
    (hc : store.find? (fun x => x.id == commentId) = some c)
    (hnd : (store.map Comment.id).Nodup) :
    (Comment.deleteComment true canMange env store commentId editorId).store =
      (store.filter (fun y => y.id != c.id)).map
        (cascadeAll (store.filter (fun x => x.parent == some c.id))) := by
  have hsub : List.Sublist ((store.filter (fun y => y.id != c.id)).map Comment.id)
      (store.map Comment.id) :=
    (List.filter_sublist store).map Comment.id
  have hnd1 : ((store.filter (fun y => y.id != c.id)).map Comment.id).Nodup :=
    hnd.sublist hsub
  have h1 : (Comment.deleteComment true canMange env store commentId editorId).store =
      cascadeChildren (store.filter (fun x => x.parent == some c.id))
        (removeFirstCommentById store c.id) := by
    unfold Comment.deleteComment
    rw [hu, hc]
    rfl
  rw [h1, removeFirstCommentById_eq_filter c.id store hnd,
    cascadeChildren_eq_map _ _ hnd1]

theorem mem_cascade_map_id_ne (store : List Comment) (cid : String) (L : List Comment) :
    ∀ x ∈ (store.filter (fun y => y.id != cid)).map (cascadeAll L), x.id ≠ cid := by
  intro x hx
  rcases List.mem_map.mp hx with ⟨y, hy, rfl⟩
  have := (List.mem_filter.mp hy).2
  rw [cascadeAll_id]
  simpa using this

theorem mem_cascade_map_of_child (store : List Comment) (cid : String)
    (x : Comment) (hx : x ∈ store) (hxid : x.id ≠ cid) (hxp : x.parent = some cid) :
    { x with state := ECommentState.PARENT_DELETED } ∈
      (store.filter (fun y => y.id != cid)).map
        (cascadeAll (store.filter (fun z => z.parent == some cid))) := by
  have hxf : x ∈ store.filter (fun y => y.id != cid) :=
    List.mem_filter.mpr ⟨hx, by simpa using hxid⟩
  have hxL : x ∈ store.filter (fun z => z.parent == some cid) :=
    List.mem_filter.mpr ⟨hx, by simp [hxp]⟩
  have hca : cascadeAll (store.filter (fun z => z.parent == some cid)) x =
      { x with state := ECommentState.PARENT_DELETED } := by
    unfold cascadeAll
    rw [if_pos]
    exact List.any_eq_true.mpr ⟨x, hxL, by simp⟩
  rw [← hca]
  exact List.mem_map_of_mem _ hxf

theorem mem_cascade_map_parent_state (store : List Comment) (cid : String) :
    ∀ x ∈ (store.filter (fun y => y.id != cid)).map
        (cascadeAll (store.filter (fun z => z.parent == some cid))),
      x.parent = some cid → x.state = ECommentState.PARENT_DELETED := by
  intro x hx hxp
  rcases List.mem_map.mp hx with ⟨y, hy, rfl⟩
  by_cases hany : ((store.filter (fun z => z.parent == some cid)).any
      (fun z => y.id == z.id)) = true
  · unfold cascadeAll
    rw [if_pos hany]
  · exfalso
    unfold cascadeAll at hxp
    rw [if_neg hany] at hxp
    have hyf : y ∈ store := (List.mem_filter.mp hy).1
    have hyL : y ∈ store.filter (fun z => z.parent == some cid) :=
      List.mem_filter.mpr ⟨hyf, by simp [hxp]⟩
    exact hany (List.any_eq_true.mpr ⟨y, hyL, by simp⟩)

theorem mem_cascade_map_of_not_child (store : List Comment) (cid : String)
    (hnd : (store.map Comment.id).Nodup)
    (x : Comment) (hx : x ∈ store) (hxid : x.id ≠ cid) (hxp : x.parent ≠ some cid) :
    x ∈ (store.filter (fun y => y.id != cid)).map
        (cascadeAll (store.filter (fun z => z.parent == some cid))) := by
  have hxf : x ∈ store.filter (fun y => y.id != cid) :=
    List.mem_filter.mpr ⟨hx, by simpa using hxid⟩
  have hca : cascadeAll (store.filter (fun z => z.parent == some cid)) x = x := by
    unfold cascadeAll
    rw [if_neg]
    intro hany
    rcases List.any_eq_true.mp hany with ⟨z, hz, hzid⟩
    have hzs : z ∈ store := (List.mem_filter.mp hz).1
    have hzp : z.parent = some cid := by
      simpa using (List.mem_filter.mp hz).2
    have hxz : x = z := comment_eq_of_id_eq hnd hx hzs (by simpa using hzid)
    rw [hxz] at hxp
    exact hxp hzp
  rw [← hca]
  exact List.mem_map_of_mem _ hxf

/-- C3: after a successful deleteComment of a comment `c`, no stored comment
carries its identifier any more, every direct child (parent reference equal to
`c.id`) is persisted with state PARENT_DELETED, every surviving comment whose
parent reference is `c.id` has state PARENT_DELETED, and every other comment —
grandchildren included — is unchanged: the cascade is one level deep. -/
theorem deleteComment_cascades_one_level (canMange : ERole) (env : Env)
    (store : List Comment) (commentId editorId : String) (u : User) (c : Comment)
    (hu : findUser env.users editorId = some u)
    (hc : store.find? (fun x => x.id == commentId) = some c)
    (hnd : (store.map Comment.id).Nodup) :
    (Comment.deleteComment true canMange env store commentId editorId).result =
      .success c .SUCCESS_DELETE EStatusCodes.SUCCESS ∧
    (∀ x ∈ (Comment.deleteComment true canMange env store commentId editorId).store,
      x.id ≠ c.id) ∧
    (∀ x ∈ store, x.id ≠ c.id → x.parent = some c.id →
      { x with state := ECommentState.PARENT_DELETED } ∈
        (Comment.deleteComment true canMange env store commentId editorId).store) ∧
    (∀ x ∈ (Comment.deleteComment true canMange env store commentId editorId).store,
      x.parent = some c.id → x.state = ECommentState.PARENT_DELETED) ∧
    (∀ x ∈ store, x.id ≠ c.id → x.parent ≠ some c.id →
      x ∈ (Comment.deleteComment true canMange env store commentId editorId).store) := by
  have hstore := deleteComment_store_eq canMange env store commentId editorId u c hu hc hnd
  refine ⟨?_, ?_, ?_, ?_, ?_⟩
  · unfold Comment.deleteComment
    rw [hu, hc]
    rfl
  · intro x hx
    rw [hstore] at hx
    exact mem_cascade_map_id_ne store c.id _ x hx
  · intro x hx hid hp
    rw [hstore]
    exact mem_cascade_map_of_child store c.id x hx hid hp
  · intro x hx hp
    rw [hstore] at hx
    exact mem_cascade_map_parent_state store c.id x hx hp
  · intro x hx hid hp
    rw [hstore]
    exact mem_cascade_map_of_not_child store c.id hnd x hx hid hp

theorem deleteComment_cascades_one_level_witness :
    ((Comment.deleteComment true ERole.SELLER
        { users := [{ id := "a0", role := ERole.USER }], idFormat := fun _ => true }
        [{ id := "c0", title := "t", body := "b", document := "d1", user := some "a0",
            parent := none, state := ECommentState.ACCEPTED },
         { id := "x1", title := "t", body := "b", document := "d1", user := some "a1",
            parent := some "c0", state := ECommentState.ACCEPTED },
         { id := "y1", title := "t", body := "b", document := "d1", user := some "a2",
            parent := some "c0", state := ECommentState.ACCEPTED },
         { id := "g1", title := "t", body := "b", document := "d1", user := some "a3",
            parent := some "x1", state := ECommentState.ACCEPTED }]
        "c0" "a0").result =
      .success
        { id := "c0", title := "t", body := "b", document := "d1", user := some "a0",
          parent := none, state := ECommentState.ACCEPTED }
        .SUCCESS_DELETE EStatusCodes.SUCCESS) ∧
    ({ id := "x1", title := "t", body := "b", document := "d1", user := some "a1",
        parent := some "c0", state := ECommentState.PARENT_DELETED } ∈
      (Comment.deleteComment true ERole.SELLER
        { users := [{ id := "a0", role := ERole.USER }], idFormat := fun _ => true }
        [{ id := "c0", title := "t", body := "b", document := "d1", user := some "a0",
            parent := none, state := ECommentState.ACCEPTED },
         { id := "x1", title := "t", body := "b", document := "d1", user := some "a1",
            parent := some "c0", state := ECommentState.ACCEPTED },
         { id := "y1", title := "t", body := "b", document := "d1", user := some "a2",
            parent := some "c0", state := ECommentState.ACCEPTED },
         { id := "g1", title := "t", body := "b", document := "d1", user := some "a3",
            parent := some "x1", state := ECommentState.ACCEPTED }]
        "c0" "a0").store) ∧
    ({ id := "y1", title := "t", body := "b", document := "d1", user := some "a2",
        parent := some "c0", state := ECommentState.PARENT_DELETED } ∈
      (Comment.deleteComment true ERole.SELLER
        { users := [{ id := "a0", role := ERole.USER }], idFormat := fun _ => true }
        [{ id := "c0", title := "t", body := "b", document := "d1", user := some "a0",
            parent := none, state := ECommentState.ACCEPTED },
         { id := "x1", title := "t", body := "b", document := "d1", user := some "a1",
            parent := some "c0", state := ECommentState.ACCEPTED },
         { id := "y1", title := "t", body := "b", document := "d1", user := some "a2",
            parent := some "c0", state := ECommentState.ACCEPTED },
         { id := "g1", title := "t", body := "b", document := "d1", user := some "a3",
            parent := some "x1", state := ECommentState.ACCEPTED }]
        "c0" "a0").store) ∧
    ({ id := "g1", title := "t", body := "b", document := "d1", user := some "a3",
        parent := some "x1", state := ECommentState.ACCEPTED } ∈
      (Comment.deleteComment true ERole.SELLER
        { users := [{ id := "a0", role := ERole.USER }], idFormat := fun _ => true }
        [{ id := "c0", title := "t", body := "b", document := "d1", user := some "a0",
            parent := none, state := ECommentState.ACCEPTED },
         { id := "x1", title := "t", body := "b", document := "d1", user := some "a1",
            parent := some "c0", state := ECommentState.ACCEPTED },
         { id := "y1", title := "t", body := "b", document := "d1", user := some "a2",
            parent := some "c0", state := ECommentState.ACCEPTED },
         { id := "g1", title := "t", body := "b", document := "d1", user := some "a3",
            parent := some "x1", state := ECommentState.ACCEPTED }]
        "c0" "a0").store) := by
  have h := deleteComment_cascades_one_level ERole.SELLER
    { users := [{ id := "a0", role := ERole.USER }], idFormat := fun _ => true }
    [{ id := "c0", title := "t", body := "b", document := "d1", user := some "a0",
        parent := none, state := ECommentState.ACCEPTED },
     { id := "x1", title := "t", body := "b", document := "d1", user := some "a1",
        parent := some "c0", state := ECommentState.ACCEPTED },
     { id := "y1", title := "t", body := "b", document := "d1", user := some "a2",
        parent := some "c0", state := ECommentState.ACCEPTED },
     { id := "g1", title := "t", body := "b", document := "d1", user := some "a3",
        parent := some "x1", state := ECommentState.ACCEPTED }]
    "c0" "a0" { id := "a0", role := ERole.USER }
    { id := "c0", title := "t", body := "b", document := "d1", user := some "a0",
      parent := none, state := ECommentState.ACCEPTED }
    rfl rfl (by decide)
  exact ⟨h.1,
    h.2.2.1
      { id := "x1", title := "t", body := "b", document := "d1", user := some "a1",
        parent := some "c0", state := ECommentState.ACCEPTED }
      (by decide) (by decide) rfl,
    h.2.2.1
      { id := "y1", title := "t", body := "b", document := "d1", user := some "a2",
        parent := some "c0", state := ECommentState.ACCEPTED }
      (by decide) (by decide) rfl,
    h.2.2.2.2
      { id := "g1", title := "t", body := "b", document := "d1", user := some "a3",
        parent := some "x1", state := ECommentState.ACCEPTED }
      (by decide) (by decide) (by decide)⟩

/-- C5: an editor who resolves but is neither the comment's author nor passes
the canMange role only gets a forbidden error recorded on the shared result
object — execution is not halted: the comment is still deleted, its direct
children still transition to PARENT_DELETED, and the success result is still
returned. -/
theorem deleteComment_records_error_but_still_deletes (canMange : ERole) (env : Env)
    (store : List Comment) (commentId editorId : String) (u : User) (c : Comment)
    (hu : findUser env.users editorId = some u)
    (hc : store.find? (fun x => x.id == commentId) = some c)
    (hnd : (store.map Comment.id).Nodup)
    (hown : c.user ≠ some u.id)
    (hperm : permissionsCheck canMange (some u.role) = false) :
    (Comment.deleteComment true canMange env store commentId editorId).recorded =
      [("editor", ECommentMSG.NO_PERMISSION, EStatusCodes.FORBIDDEN)] ∧
    (Comment.deleteComment true canMange env store commentId editorId).result =
      .success c .SUCCESS_DELETE EStatusCodes.SUCCESS ∧
    (∀ x ∈ (Comment.deleteComment true canMange env store commentId editorId).store,
      x.id ≠ c.id) ∧
    (∀ x ∈ store, x.id ≠ c.id → x.parent = some c.id →
      { x with state := ECommentState.PARENT_DELETED } ∈
        (Comment.deleteComment true canMange env store commentId editorId).store) := by
  have hstore := deleteComment_store_eq canMange env store commentId editorId u c hu hc hnd
  refine ⟨?_, ?_, ?_, ?_⟩
  · have hbne : (c.user != some u.id) = true := by
      simpa [bne_iff_ne] using hown
    have h2 : (Comment.deleteComment true canMange env store commentId editorId).recorded =
        (if (c.user != some u.id && !permissionsCheck canMange (some u.role)) = true
          then [("editor", ECommentMSG.NO_PERMISSION, EStatusCodes.FORBIDDEN)] else []) := by
      unfold Comment.deleteComment
      rw [hu, hc]
      rfl
    rw [h2, hbne, hperm]
    rfl
  · unfold Comment.deleteComment
    rw [hu, hc]
    rfl
  · intro x hx
    rw [hstore] at hx
    exact mem_cascade_map_id_ne store c.id _ x hx
  · intro x hx hid hp
    rw [hstore]
    exact mem_cascade_map_of_child store c.id x hx hid hp

theorem deleteComment_records_error_but_still_deletes_witness :
    ((Comment.deleteComment true ERole.SELLER
        { users := [{ id := "e9", role := ERole.USER }], idFormat := fun _ => true }
        [{ id := "c0", title := "t", body := "b", document := "d1", user := some "a0",
            parent := none, state := ECommentState.ACCEPTED },
         { id := "x1", title := "t", body := "b", document := "d1", user := some "a1",
            parent := some "c0", state := ECommentState.ACCEPTED }]
        "c0" "e9").recorded =
      [("editor", ECommentMSG.NO_PERMISSION, EStatusCodes.FORBIDDEN)]) ∧
    ((Comment.deleteComment true ERole.SELLER
        { users := [{ id := "e9", role := ERole.USER }], idFormat := fun _ => true }
        [{ id := "c0", title := "t", body := "b", document := "d1", user := some "a0",
            parent := none, state := ECommentState.ACCEPTED },
         { id := "x1", title := "t", body := "b", document := "d1", user := some "a1",
            parent := some "c0", state := ECommentState.ACCEPTED }]
        "c0" "e9").result =
      .success
        { id := "c0", title := "t", body := "b", document := "d1", user := some "a0",
          parent := none, state := ECommentState.ACCEPTED }
        .SUCCESS_DELETE EStatusCodes.SUCCESS) ∧
    ({ id := "x1", title := "t", body := "b", document := "d1", user := some "a1",
        parent := some "c0", state := ECommentState.PARENT_DELETED } ∈
      (Comment.deleteComment true ERole.SELLER
        { users := [{ id := "e9", role := ERole.USER }], idFormat := fun _ => true }
        [{ id := "c0", title := "t", body := "b", document := "d1", user := some "a0",
            parent := none, state := ECommentState.ACCEPTED },
         { id := "x1", title := "t", body := "b", document := "d1", user := some "a1",
            parent := some "c0", state := ECommentState.ACCEPTED }]
        "c0" "e9").store) := by
  have h := deleteComment_records_error_but_still_deletes ERole.SELLER
    { users := [{ id := "e9", role := ERole.USER }], idFormat := fun _ => true }
    [{ id := "c0", title := "t", body := "b", document := "d1", user := some "a0",
        parent := none, state := ECommentState.ACCEPTED },
     { id := "x1", title := "t", body := "b", document := "d1", user := some "a1",
        parent := some "c0", state := ECommentState.ACCEPTED }]
    "c0" "e9" { id := "e9", role := ERole.USER }
    { id := "c0", title := "t", body := "b", document := "d1", user := some "a0",
      parent := none, state := ECommentState.ACCEPTED }
    rfl rfl (by decide) (by decide) rfl
  exact ⟨h.1, h.2.1,
    h.2.2.2
      { id := "x1", title := "t", body := "b", document := "d1", user := some "a1",
        parent := some "c0", state := ECommentState.ACCEPTED }
      (by decide) (by decide) rfl⟩

/-- C6 counterevidence: `getDocumentComments` resolves the identity with
`findDocByIdentity(identity, this.CommentModel)`, i.e. against the comment
collection. With the document `d1` present in the document collection and the
comment collection empty, the operation reports the article-not-found error
even though the identity resolver finds `d1` in the document collection. -/
theorem getDocumentComments_resolves_against_comment_collection :
    Comment.getDocumentComments true { users := [], idFormat := fun _ => true } [] "d1" 1 10 =
      .error "article" .ARTICLE_NOT_FOUND EStatusCodes.NOT_FOUND ∧
    findRecByIdentity { users := [], idFormat := fun _ => true } "d1"
        [{ id := "d1", slug := none, authorId := none, state := EStates.PUBLISHED,
            content := "a" }] =
      some { id := "d1", slug := none, authorId := none, state := EStates.PUBLISHED,
              content := "a" } :=
  ⟨rfl, rfl⟩

end CorePlex
